import Mathlib

/-!
Verification development for the authentication security gate of the
school-management-system repository.

The definitions below are a shallow embedding of the Python sources
`apps/accounts/backends.py`, `apps/accounts/middleware.py`,
`apps/accounts/models.py` and `apps/accounts/security_views.py`:

* Django's cache (a TTL key-value store) is modelled as a function from
  structured keys to an optional (value, expiry) pair; `cache.set(k, v, ttl)`
  at time `now` stores expiry `now + ttl`, and `cache.get` treats an entry as
  absent once `now` reaches its expiry.  The f-string key namespaces
  (`login_attempts:`, `account_lockout:`, `ip_attempts:`, `ip_rate_limit:`,
  `rate_limit:`) are injective string encodings, modelled by the constructors
  of `CacheKey`.
* The durable append-only tables `SecurityEvent` and `LoginAttempt` and the
  process log (`logger.warning` / `logger.info` lines) are explicit list
  fields of `BackendState`, so that a theorem can talk about exactly which
  records an operation appends.
* Django's `ModelBackend.authenticate` (the password-hash comparison) is an
  external primitive, passed in as a function `cp : String → String → Bool`;
  the result field `password_checked` records whether it was consulted.
* Time is an explicit `Nat` parameter (seconds); model instances
  (`TwoFactorAuth` rows) are passed and returned explicitly.
-/

/-- Cache key namespaces used by the sources.  Each constructor corresponds to
one f-string prefix in the Python code. -/
inductive CacheKey where
  /-- Key prefix login_attempts: followed by the username (backends.py). -/
  | loginAttempts (username : String)
  /-- Key prefix account_lockout: followed by the username (backends.py). -/
  | accountLockout (username : String)
  /-- Key prefix ip_attempts: followed by the IP (backends.py). -/
  | ipAttempts (ip : String)
  /-- Key prefix ip_rate_limit: followed by the IP (backends.py). -/
  | ipRateLimit (ip : String)
  /-- Key prefix rate_limit: followed by the IP (middleware.py). -/
  | rateLimit (ip : String)
deriving DecidableEq

/-- The Django cache: each key maps to an optional (value, expiry-time) pair.
Boolean cache values (`cache.set(lockout_key, True, ...)`) are stored as the
numeric value 1; every read of such a key in the sources only tests presence
(`cache.get(key) is not None`). -/
def Cache : Type := CacheKey → Option (Nat × Nat)

/-- Empty cache. -/
def Cache.empty : Cache := fun _ => none

/-- Models `cache.get` at time `now`: an entry is visible while `now` is before
its expiry, and treated as absent afterwards (TTL semantics). -/
def Cache.get (c : Cache) (k : CacheKey) (now : Nat) : Option Nat :=
  match c k with
  | some (v, exp) => if now < exp then some v else none
  | none => none

/-- Models `cache.set` with a TTL, at time `now`. -/
def Cache.set (c : Cache) (k : CacheKey) (v : Nat) (ttl : Nat) (now : Nat) : Cache :=
  fun k' => if k' = k then some (v, now + ttl) else c k'

/-- Models `cache.delete`. -/
def Cache.delete (c : Cache) (k : CacheKey) : Cache :=
  fun k' => if k' = k then none else c k'

/-- A row of the durable `SecurityEvent` table (models.py `SecurityEvent`). -/
structure SecurityEventRec where
  user : Option String
  event_type : String
  description : String
  ip_address : String
  user_agent : String
deriving DecidableEq

/-- A row of the durable `LoginAttempt` table (models.py `LoginAttempt`). -/
structure LoginAttemptRec where
  username : String
  ip_address : String
  user_agent : String
  success : Bool
  failure_reason : String
deriving DecidableEq

/-- The mutable state visible to the security gate: the cache, the two
durable append-only tables, and the process log lines emitted via
`logger.warning` / `logger.info`. -/
structure BackendState where
  cache : Cache
  events : List SecurityEventRec
  login_log : List LoginAttemptRec
  logLines : List String

/-- Initial state: empty cache, no durable records, no log lines. -/
def BackendState.empty : BackendState :=
  { cache := Cache.empty, events := [], login_log := [], logLines := [] }

/-- Models `logger.warning` and `logger.info`: appends a process log line.
These lines go to the logging framework only, not to the durable tables. -/
def BackendState.log (st : BackendState) (msg : String) : BackendState :=
  { st with logLines := st.logLines ++ [msg] }

/-! Settings from `config/settings.py` (also the `getattr` defaults in
backends.py). -/

/-- Setting `LOGIN_ATTEMPTS_LIMIT` (value 5). -/
def LOGIN_ATTEMPTS_LIMIT : Nat := 5

/-- Setting `LOGIN_ATTEMPTS_TIMEOUT` (300 seconds). -/
def LOGIN_ATTEMPTS_TIMEOUT : Nat := 300

/-- Setting `ACCOUNT_LOCKOUT_DURATION` (1800 seconds). -/
def ACCOUNT_LOCKOUT_DURATION : Nat := 1800

namespace RateLimitedModelBackend

/-- Embeds `_is_account_locked`: presence of the account_lockout key, per cache.get is-not-None. -/
def is_account_locked (c : Cache) (now : Nat) (username : String) : Bool :=
  (c.get (.accountLockout username) now).isSome

/-- Embeds `_lock_account`: a `cache.set` of the lockout key to True for 1800 seconds, plus a log line. -/
def lock_account (st : BackendState) (now : Nat) (username : String) : BackendState :=
  let st := { st with
    cache := st.cache.set (.accountLockout username) 1 ACCOUNT_LOCKOUT_DURATION now }
  st.log ("Account locked: " ++ username ++ " for 1800 seconds")

/-- Embeds `_record_failed_attempt`: reads the current counter (`cache.get`, default
0), writes `current + 1` back with a fresh full TTL (`cache.set`), and locks
the account when the new count reaches `LOGIN_ATTEMPTS_LIMIT`. -/
def record_failed_attempt (st : BackendState) (now : Nat) (username : String) :
    BackendState :=
  let current := (st.cache.get (.loginAttempts username) now).getD 0
  let newAttempts := current + 1
  let st := { st with
    cache := st.cache.set (.loginAttempts username) newAttempts LOGIN_ATTEMPTS_TIMEOUT now }
  if LOGIN_ATTEMPTS_LIMIT ≤ newAttempts then
    (lock_account st now username).log
      ("Account locked due to too many failed attempts: " ++ username)
  else
    st

/-- Embeds `_reset_failed_attempts`: `cache.delete` of both the attempts counter and
the lockout record for the username. -/
def reset_failed_attempts (st : BackendState) (username : String) : BackendState :=
  let c := (st.cache.delete (.loginAttempts username)).delete (.accountLockout username)
  { st with cache := c }

/-- Result of an `authenticate` call: the returned user (None on refusal),
the updated state, and whether the external password comparison
(`super().authenticate`, i.e. Django's `ModelBackend`) was consulted. -/
structure AuthResult where
  user : Option String
  st : BackendState
  password_checked : Bool

/-- Embeds `RateLimitedModelBackend.authenticate`: refuse early when the username is
locked (without consulting the password primitive); on success reset the
counters; on failure record the attempt. `cp` is the external credential
primitive: `cp u p = true` iff `(u, p)` is a valid credential pair. -/
def authenticate (cp : String → String → Bool) (st : BackendState) (now : Nat)
    (username password : Option String) : AuthResult :=
  match username, password with
  | some u, some p =>
    if is_account_locked st.cache now u then
      { user := none,
        st := st.log ("Login attempt blocked - account locked: " ++ u),
        password_checked := false }
    else if cp u p then
      { user := some u,
        st := (reset_failed_attempts st u).log ("Successful login: " ++ u),
        password_checked := true }
    else
      { user := none,
        st := (record_failed_attempt st now u).log ("Failed login attempt: " ++ u),
        password_checked := true }
  | _, _ => { user := none, st := st, password_checked := false }

end RateLimitedModelBackend

namespace IPRateLimitedBackend

/-- Embeds `_is_ip_rate_limited`: presence of the ip_rate_limit key, per cache.get is-not-None. -/
def is_ip_rate_limited (c : Cache) (now : Nat) (ip : String) : Bool :=
  (c.get (.ipRateLimit ip) now).isSome

/-- Embeds `_rate_limit_ip`: a `cache.set` of the ip_rate_limit key to True for 1800 seconds, plus a log line. -/
def rate_limit_ip (st : BackendState) (now : Nat) (ip : String) : BackendState :=
  let st := { st with
    cache := st.cache.set (.ipRateLimit ip) 1 ACCOUNT_LOCKOUT_DURATION now }
  st.log ("IP rate limited: " ++ ip ++ " for 1800 seconds")

/-- Embeds `_record_ip_failed_attempt`: same read-then-write counter shape as the
username counter, on the `ip_attempts:` key. -/
def record_ip_failed_attempt (st : BackendState) (now : Nat) (ip : String) :
    BackendState :=
  let current := (st.cache.get (.ipAttempts ip) now).getD 0
  let newAttempts := current + 1
  let st := { st with
    cache := st.cache.set (.ipAttempts ip) newAttempts LOGIN_ATTEMPTS_TIMEOUT now }
  if LOGIN_ATTEMPTS_LIMIT ≤ newAttempts then
    (rate_limit_ip st now ip).log
      ("IP rate limited due to too many failed attempts: " ++ ip)
  else
    st

/-- Embeds `IPRateLimitedBackend.authenticate`: refuse early when the client IP is
rate limited; otherwise run the username-keyed backend
(`super().authenticate`), and record an IP failed attempt whenever it did not
produce a user.  `client_ip` is the address `_get_client_ip` derives from the
request (first entry of `X-Forwarded-For`, else the peer address). -/
def authenticate (cp : String → String → Bool) (st : BackendState) (now : Nat)
    (username password : Option String) (client_ip : String) :
    RateLimitedModelBackend.AuthResult :=
  if is_ip_rate_limited st.cache now client_ip then
    { user := none,
      st := st.log ("Login attempt blocked - IP rate limited: " ++ client_ip),
      password_checked := false }
  else
    let res := RateLimitedModelBackend.authenticate cp st now username password
    match res.user with
    | none => { res with st := record_ip_failed_attempt res.st now client_ip }
    | some u => { res with user := some u }

end IPRateLimitedBackend

/-! ## Middleware (`apps/accounts/middleware.py`, `SecurityMiddleware`) -/

/-- The parts of a Django request read by the middleware. -/
structure HttpRequest where
  method : String
  path : String
  /-- Field modelling `request.GET`: decoded query parameters (key, value). -/
  getParams : List (String × String)
  /-- Field modelling `request.POST`: decoded form fields (key, value). -/
  postParams : List (String × String)
  /-- Header `HTTP_USER_AGENT` (empty string when missing). -/
  user_agent : String
  /-- Header `HTTP_X_FORWARDED_FOR` when present. -/
  xForwardedFor : Option String
  /-- Peer address `REMOTE_ADDR`. -/
  remoteAddr : String
  /-- Username of `request.user` when the request is authenticated, else `none`. -/
  user : Option String
deriving DecidableEq

/-- Auxiliary: is `pat` a contiguous substring of `s` (as char lists)?
Implements Python's `pat in s`. -/
def strContainsAux (pat : List Char) : List Char → Bool
  | [] => pat.isEmpty
  | c :: rest => pat.isPrefixOf (c :: rest) || strContainsAux pat rest

/-- Python `pat in s` on strings. -/
def strContains (s pat : String) : Bool :=
  strContainsAux pat.data s.data

/-- Python `s.startswith(pre)` on strings (as char lists). -/
def strStartsWith (s pre : String) : Bool :=
  pre.data.isPrefixOf s.data

/-- Python `s.lower()` (ASCII case folding suffices for the fixed pattern
lists used by the detector). -/
def strLower (s : String) : String :=
  ⟨s.data.map Char.toLower⟩

/-- List `suspicious_patterns` from `_check_suspicious_activity`. -/
def suspicious_patterns : List String :=
  ["sqlmap", "nikto", "nmap", "masscan", "zap",
   "burp", "w3af", "acunetix", "nessus", "openvas"]

/-- List `sql_patterns` from `_detect_sql_injection`. -/
def sql_patterns : List String :=
  ["union select", "drop table", "delete from", "insert into",
   "update set", "exec(", "execute(", "script>", "javascript:",
   "onload=", "onerror=", "onclick=", "onmouseover="]

/-- List `xss_patterns` from `_detect_xss_attempt`. -/
def xss_patterns : List String :=
  ["<script", "javascript:", "onload=", "onerror=",
   "onclick=", "onmouseover=", "onfocus=", "onblur=",
   "onchange=", "onsubmit=", "onreset=", "onkeydown=",
   "onkeyup=", "onkeypress=", "onmousedown=", "onmouseup="]

/-- Shared scan shape of `_detect_sql_injection` / `_detect_xss_attempt`:
some GET value matches, or the method is POST and some POST value matches
(every pattern comparison is on the lower-cased value). -/
def detectParamPatterns (pats : List String) (r : HttpRequest) : Bool :=
  (r.getParams.any fun kv => pats.any fun pat => strContains (strLower kv.2) pat) ||
  (r.method == "POST" &&
    (r.postParams.any fun kv => pats.any fun pat => strContains (strLower kv.2) pat))

/-- Embeds `_detect_sql_injection`. -/
def detect_sql_injection (r : HttpRequest) : Bool :=
  detectParamPatterns sql_patterns r

/-- Embeds `_detect_xss_attempt`. -/
def detect_xss_attempt (r : HttpRequest) : Bool :=
  detectParamPatterns xss_patterns r

/-- Embeds `SecurityMiddleware._get_client_ip`: first entry of `X-Forwarded-For`
(stripped) when the header is present and non-empty, else `REMOTE_ADDR`. -/
def get_client_ip (r : HttpRequest) : String :=
  match r.xForwardedFor with
  | some s => if s = "" then r.remoteAddr else ((s.splitOn ",").headD "").trim
  | none => r.remoteAddr

/-- Embeds `_log_suspicious_activity`: a warning log line plus exactly one
`SUSPICIOUS_ACTIVITY` SecurityEvent append (the authenticated and anonymous
branches append the same record shape, differing only in the user field). -/
def log_suspicious_activity (st : BackendState) (r : HttpRequest)
    (client_ip user_agent description : String) : BackendState :=
  let st := st.log ("Suspicious activity detected: " ++ description ++ " from " ++ client_ip)
  { st with events := st.events ++
      [{ user := r.user, event_type := "SUSPICIOUS_ACTIVITY",
         description := description, ip_address := client_ip,
         user_agent := user_agent }] }

/-- Embeds `_check_suspicious_activity`: the user-agent scan logs at most one event
(first matching signature, then `break`); the SQL-injection scan and the XSS
scan each independently log one further event when they match. -/
def check_suspicious_activity (st : BackendState) (r : HttpRequest)
    (client_ip user_agent : String) : BackendState :=
  let st :=
    match suspicious_patterns.find? (fun pat => strContains (strLower user_agent) pat) with
    | some pat =>
      log_suspicious_activity st r client_ip user_agent
        ("Suspicious user agent detected: " ++ pat)
    | none => st
  let st :=
    if detect_sql_injection r then
      log_suspicious_activity st r client_ip user_agent
        "Potential SQL injection attempt detected"
    else st
  if detect_xss_attempt r then
    log_suspicious_activity st r client_ip user_agent
      "Potential XSS attempt detected"
  else st

/-- List `sensitive_paths` from `_is_sensitive_endpoint`. -/
def sensitive_paths : List String :=
  ["/accounts/login/", "/accounts/signup/", "/admin/", "/api/"]

/-- Embeds `_is_sensitive_endpoint`: the request path starts with some listed entry. -/
def is_sensitive_endpoint (r : HttpRequest) : Bool :=
  sensitive_paths.any fun p => strStartsWith r.path p

/-- Embeds `_is_rate_limited`: presence of the rate_limit key, per cache.get is-not-None.
Note the key namespace: `rate_limit:`, distinct from the backend's
`ip_rate_limit:` keys. -/
def is_rate_limited (c : Cache) (now : Nat) (client_ip : String) : Bool :=
  (c.get (.rateLimit client_ip) now).isSome

/-- What `SecurityMiddleware.process_request` returns: `pass` models the
Python `return None` (request proceeds), `tooManyRequests` models the
too-many-requests refusal branch. -/
inductive RequestDecision where
  | pass
  | tooManyRequests
deriving DecidableEq

/-- Embeds `SecurityMiddleware.process_request`: run the suspicious-activity scan,
then refuse sensitive-path requests whose client IP has a live `rate_limit:`
cache entry. -/
def process_request (st : BackendState) (now : Nat) (r : HttpRequest) :
    RequestDecision × BackendState :=
  let client_ip := get_client_ip r
  let ua := r.user_agent
  let st := check_suspicious_activity st r client_ip ua
  if is_sensitive_endpoint r && is_rate_limited st.cache now client_ip then
    (.tooManyRequests, st.log ("Rate limited request blocked from IP: " ++ client_ip))
  else
    (.pass, st)

/-! ## Two-factor manager (`apps/accounts/models.py`, `TwoFactorAuth`;
`apps/accounts/security_views.py`) -/

/-- The fields of a `TwoFactorAuth` row read or written by the claims'
operations.  `secret_key` is the empty string while no secret has been
generated (a blank `CharField`). -/
structure TwoFactorAuth where
  is_enabled : Bool
  secret_key : String
  backup_codes : List String
deriving DecidableEq

/-- Modelled from the spec: the external `pyotp` library's time-step-based
one-time-code generator is not part of this repository; the spec describes it
as computing "the standard time-step-based one-time code (30-second step) for
the stored secret" at a given time step.  The generator is therefore passed in
abstractly as a function `totp_at : secret → step → code`.
`pyotpVerify totp_at secret token t w` models `pyotp.TOTP(secret).verify(token,
valid_window=w)` at current time step `t`: with a non-zero window it compares
the token against the codes of every step from `t - w` to `t + w`. -/
def pyotpVerify (totp_at : String → Int → String) (secret token : String)
    (t : Int) (valid_window : Nat) : Bool :=
  if valid_window ≠ 0 then
    ((List.range (2 * valid_window + 1)).map
        (fun i => t - (valid_window : Int) + (i : Int))).any
      (fun s => token == totp_at secret s)
  else
    token == totp_at secret t

namespace TwoFactorAuth

/-- Embeds `TwoFactorAuth.verify_totp`: returns false when 2FA is not enabled or no
secret exists; otherwise verifies the token with `valid_window=1`. -/
def verify_totp (totp_at : String → Int → String) (tfa : TwoFactorAuth)
    (token : String) (t : Int) : Bool :=
  if !tfa.is_enabled || tfa.secret_key == "" then
    false
  else
    pyotpVerify totp_at tfa.secret_key token t 1

/-- Embeds `TwoFactorAuth.verify_backup_code`: on membership, remove the first
occurrence of the code and return true; otherwise return false with the row
unchanged.  Returns (result, updated row). -/
def verify_backup_code (tfa : TwoFactorAuth) (code : String) :
    Bool × TwoFactorAuth :=
  if code ∈ tfa.backup_codes then
    (true, { tfa with backup_codes := tfa.backup_codes.erase code })
  else
    (false, tfa)

end TwoFactorAuth

/-- Embeds `security_views.verify_2fa_setup` (POST branch, profile present): if
`verify_totp(token)` succeeds, set `is_enabled = True` and save; otherwise
leave the row unchanged and report an invalid token.  Returns the updated row
and whether the success message was shown. -/
def verify_2fa_setup (totp_at : String → Int → String) (tfa : TwoFactorAuth)
    (token : String) (t : Int) : TwoFactorAuth × Bool :=
  if tfa.verify_totp totp_at token t then
    ({ tfa with is_enabled := true }, true)
  else
    (tfa, false)

/-! ## Helper lemmas about the cache and the backend operations -/

theorem Cache.get_set_self (c : Cache) (k : CacheKey) (v ttl now t : Nat) :
    (c.set k v ttl now).get k t = if t < now + ttl then some v else none := by
  simp [Cache.get, Cache.set]

theorem Cache.get_set_ne (c : Cache) {k k' : CacheKey} (h : k' ≠ k) (v ttl now t : Nat) :
    (c.set k v ttl now).get k' t = c.get k' t := by
  simp [Cache.get, Cache.set, h]

theorem Cache.get_none {c : Cache} {k : CacheKey} (h : c k = none) (t : Nat) :
    c.get k t = none := by
  simp [Cache.get, h]

namespace RateLimitedModelBackend

theorem record_failed_attempt_counter (st : BackendState) (now : Nat) (u : String) :
    (record_failed_attempt st now u).cache (.loginAttempts u) =
      some ((st.cache.get (.loginAttempts u) now).getD 0 + 1, now + LOGIN_ATTEMPTS_TIMEOUT) := by
  simp only [record_failed_attempt, lock_account, BackendState.log]
  split <;> simp [Cache.set]

theorem record_failed_attempt_lockout_small (st : BackendState) (now : Nat) (u : String)
    (h : (st.cache.get (.loginAttempts u) now).getD 0 + 1 < LOGIN_ATTEMPTS_LIMIT) :
    (record_failed_attempt st now u).cache (.accountLockout u) =
      st.cache (.accountLockout u) := by
  simp only [record_failed_attempt, lock_account, BackendState.log]
  rw [if_neg (by omega)]
  simp [Cache.set]

theorem record_failed_attempt_lockout_lock (st : BackendState) (now : Nat) (u : String)
    (h : LOGIN_ATTEMPTS_LIMIT ≤ (st.cache.get (.loginAttempts u) now).getD 0 + 1) :
    (record_failed_attempt st now u).cache (.accountLockout u) =
      some (1, now + ACCOUNT_LOCKOUT_DURATION) := by
  simp only [record_failed_attempt, lock_account, BackendState.log]
  rw [if_pos h]
  simp [Cache.set]

theorem record_failed_attempt_cache_other (st : BackendState) (now : Nat) (u : String)
    (k : CacheKey) (h1 : k ≠ .loginAttempts u) (h2 : k ≠ .accountLockout u) :
    (record_failed_attempt st now u).cache k = st.cache k := by
  simp only [record_failed_attempt, lock_account, BackendState.log]
  split <;> simp [Cache.set, h1, h2]

theorem record_failed_attempt_tables (st : BackendState) (now : Nat) (u : String) :
    (record_failed_attempt st now u).events = st.events ∧
    (record_failed_attempt st now u).login_log = st.login_log := by
  simp only [record_failed_attempt, lock_account, BackendState.log]
  split <;> simp

theorem reset_failed_attempts_counter (st : BackendState) (u : String) :
    (reset_failed_attempts st u).cache (.loginAttempts u) = none := by
  simp [reset_failed_attempts, Cache.delete]

theorem reset_failed_attempts_lockout (st : BackendState) (u : String) :
    (reset_failed_attempts st u).cache (.accountLockout u) = none := by
  simp [reset_failed_attempts, Cache.delete]

theorem reset_failed_attempts_cache_other (st : BackendState) (u : String)
    (k : CacheKey) (h1 : k ≠ .loginAttempts u) (h2 : k ≠ .accountLockout u) :
    (reset_failed_attempts st u).cache k = st.cache k := by
  simp [reset_failed_attempts, Cache.delete, h1, h2]

theorem reset_failed_attempts_tables (st : BackendState) (u : String) :
    (reset_failed_attempts st u).events = st.events ∧
    (reset_failed_attempts st u).login_log = st.login_log := by
  simp [reset_failed_attempts]

theorem authenticate_locked (cp : String → String → Bool) (st : BackendState) (now : Nat)
    (u p : String) (h : is_account_locked st.cache now u = true) :
    authenticate cp st now (some u) (some p) =
      { user := none,
        st := st.log ("Login attempt blocked - account locked: " ++ u),
        password_checked := false } := by
  simp [authenticate, h]

theorem authenticate_failure (cp : String → String → Bool) (st : BackendState) (now : Nat)
    (u p : String) (hl : is_account_locked st.cache now u = false) (hp : cp u p = false) :
    authenticate cp st now (some u) (some p) =
      { user := none,
        st := (record_failed_attempt st now u).log ("Failed login attempt: " ++ u),
        password_checked := true } := by
  simp [authenticate, hl, hp]

theorem authenticate_success (cp : String → String → Bool) (st : BackendState) (now : Nat)
    (u p : String) (hl : is_account_locked st.cache now u = false) (hp : cp u p = true) :
    authenticate cp st now (some u) (some p) =
      { user := some u,
        st := (reset_failed_attempts st u).log ("Successful login: " ++ u),
        password_checked := true } := by
  simp [authenticate, hl, hp]

end RateLimitedModelBackend

theorem pyotpVerify_window_one (totp_at : String → Int → String) (sk token : String) (t : Int) :
    pyotpVerify totp_at sk token t 1 =
      (token == totp_at sk (t - 1) || token == totp_at sk t || token == totp_at sk (t + 1)) := by
  have h3 : List.range (2 * 1 + 1) = [0, 1, 2] := rfl
  have h12 : t - 1 + 2 = t + 1 := by ring
  simp only [pyotpVerify, h3, List.map_cons, List.map_nil, List.any_cons, List.any_nil]
  norm_num [h12, Bool.or_assoc]

/-- C6: `verify_totp` accepts a token exactly when 2FA is enabled, a secret
exists, and the token equals the code of the previous, current, or next
30-second step; it returns false whenever 2FA is not enabled or no secret
exists; and a token generated two or more steps away (that does not collide
with an in-window code) is rejected. -/
theorem c6_verify_totp_window (totp_at : String → Int → String) (tfa : TwoFactorAuth)
    (token : String) (t : Int) :
    (tfa.verify_totp totp_at token t = true ↔
      tfa.is_enabled = true ∧ tfa.secret_key ≠ "" ∧
        (token = totp_at tfa.secret_key (t - 1) ∨ token = totp_at tfa.secret_key t ∨
         token = totp_at tfa.secret_key (t + 1))) ∧
    (tfa.is_enabled = false → tfa.verify_totp totp_at token t = false) ∧
    (tfa.secret_key = "" → tfa.verify_totp totp_at token t = false) ∧
    (∀ s : Int, 2 ≤ (s - t).natAbs →
      totp_at tfa.secret_key s ≠ totp_at tfa.secret_key (t - 1) →
      totp_at tfa.secret_key s ≠ totp_at tfa.secret_key t →
      totp_at tfa.secret_key s ≠ totp_at tfa.secret_key (t + 1) →
      tfa.verify_totp totp_at (totp_at tfa.secret_key s) t = false) := by
  have key : ∀ tok : String, tfa.verify_totp totp_at tok t =
      (tfa.is_enabled && !(tfa.secret_key == "") &&
        (tok == totp_at tfa.secret_key (t - 1) || tok == totp_at tfa.secret_key t ||
         tok == totp_at tfa.secret_key (t + 1))) := by
    intro tok
    by_cases he : tfa.is_enabled <;>
      by_cases hs : tfa.secret_key = "" <;>
        simp [TwoFactorAuth.verify_totp, pyotpVerify_window_one, he, hs]
  refine ⟨?_, ?_, ?_, ?_⟩
  · rw [key]
    simp [and_assoc, or_assoc]
  · intro he; rw [key, he]; simp
  · intro hs; rw [key, hs]; simp
  · intro s _ h1 h2 h3
    rw [key]
    simp [h1, h2, h3]

/-- Concrete stand-in generator used to instantiate the abstract TOTP code
function in witnesses: distinct codes at the steps around 0. -/
def totpStub : String → Int → String := fun _ s =>
  if s = -1 then "A" else if s = 0 then "B" else if s = 1 then "C" else "D"

/-- Witness for C6 at a concrete input: the next-step code is accepted,
a code from two steps away is rejected. -/
theorem c6_verify_totp_window_witness :
    TwoFactorAuth.verify_totp totpStub ⟨true, "K", []⟩ "C" 0 = true ∧
    TwoFactorAuth.verify_totp totpStub ⟨true, "K", []⟩ "D" 0 = false := by
  constructor
  · exact (c6_verify_totp_window totpStub ⟨true, "K", []⟩ "C" 0).1.mpr
      ⟨rfl, by decide, Or.inr (Or.inr (by decide))⟩
  · exact (c6_verify_totp_window totpStub ⟨true, "K", []⟩ "D" 0).2.2.2 2
      (by decide) (by decide) (by decide) (by decide)

/-- C1 (code bug): during setup the profile has `is_enabled = false`, and
`verify_totp` short-circuits to false whenever the profile is not enabled, so
for EVERY submitted token — including the code of the current time step of the
stored secret — `verify_2fa_setup` leaves the profile unchanged with
`is_enabled` still false and reports failure.  The enabled flag can never flip
true, contradicting the two-step enabling protocol (and the view's own
success branch, which is unreachable). -/
theorem c1_verify_2fa_setup_never_enables (totp_at : String → Int → String)
    (sk : String) (codes : List String) (token : String) (t : Int) :
    verify_2fa_setup totp_at ⟨false, sk, codes⟩ token t = (⟨false, sk, codes⟩, false) := by
  simp [verify_2fa_setup, TwoFactorAuth.verify_totp]

/-- C7: a backup code is redeemable exactly when it is a member of the unused
set; redemption removes it (length shrinks by one) and a second sequential
call with the same code fails; a non-member leaves the row unchanged. -/
theorem c7_backup_code_single_use (tfa : TwoFactorAuth) (code : String)
    (hnd : tfa.backup_codes.Nodup) :
    ((tfa.verify_backup_code code).1 = true ↔ code ∈ tfa.backup_codes) ∧
    (code ∈ tfa.backup_codes →
      (tfa.verify_backup_code code).2.backup_codes.length + 1 = tfa.backup_codes.length ∧
      code ∉ (tfa.verify_backup_code code).2.backup_codes ∧
      ((tfa.verify_backup_code code).2.verify_backup_code code).1 = false) ∧
    (code ∉ tfa.backup_codes → tfa.verify_backup_code code = (false, tfa)) := by
  by_cases h : code ∈ tfa.backup_codes
  · have hlen := List.length_erase_of_mem h
    have hpos : 0 < tfa.backup_codes.length := List.length_pos.mpr (by
      intro he; rw [he] at h; exact (List.not_mem_nil _ h))
    have hnm : code ∉ tfa.backup_codes.erase code := by
      intro hmem
      rcases (List.Nodup.mem_erase_iff hnd).mp hmem with ⟨hne, _⟩
      exact hne rfl
    refine ⟨?_, ?_, ?_⟩
    · simp [TwoFactorAuth.verify_backup_code, h]
    · intro _
      refine ⟨?_, ?_, ?_⟩
      · simp [TwoFactorAuth.verify_backup_code, h, hlen]
        omega
      · simpa [TwoFactorAuth.verify_backup_code, h] using hnm
      · simp [TwoFactorAuth.verify_backup_code, h, hnm]
    · intro hn; exact absurd h hn
  · simp [TwoFactorAuth.verify_backup_code, h]

/-- Witness for C7 at a concrete profile: redeeming a listed code succeeds and
redeeming it again fails. -/
theorem c7_backup_code_single_use_witness :
    (TwoFactorAuth.verify_backup_code ⟨true, "S", ["AAAA", "BBBB"]⟩ "AAAA").1 = true ∧
    (((TwoFactorAuth.verify_backup_code ⟨true, "S", ["AAAA", "BBBB"]⟩
        "AAAA").2).verify_backup_code "AAAA").1 = false := by
  have h := c7_backup_code_single_use ⟨true, "S", ["AAAA", "BBBB"]⟩ "AAAA" (by decide)
  exact ⟨h.1.mpr (by decide), (h.2.1 (by decide)).2.2⟩

theorem check_suspicious_activity_cache (st : BackendState) (r : HttpRequest) (ip ua : String) :
    (check_suspicious_activity st r ip ua).cache = st.cache := by
  simp only [check_suspicious_activity]
  split <;> split <;> split <;> simp [log_suspicious_activity, BackendState.log]

theorem check_suspicious_activity_login_log (st : BackendState) (r : HttpRequest) (ip ua : String) :
    (check_suspicious_activity st r ip ua).login_log = st.login_log := by
  simp only [check_suspicious_activity]
  split <;> split <;> split <;> simp [log_suspicious_activity, BackendState.log]

theorem check_suspicious_activity_events_len (st : BackendState) (r : HttpRequest) (ip ua : String) :
    (check_suspicious_activity st r ip ua).events.length = st.events.length +
      ((if (suspicious_patterns.find? (fun pat => strContains (strLower ua) pat)).isSome
          then 1 else 0) +
       (if detect_sql_injection r then 1 else 0) +
       (if detect_xss_attempt r then 1 else 0)) := by
  simp only [check_suspicious_activity]
  rcases hua : suspicious_patterns.find? (fun pat => strContains (strLower ua) pat) with _ | pat <;>
    rcases hsql : detect_sql_injection r with _ | _ <;>
      rcases hxss : detect_xss_attempt r with _ | _ <;>
        simp [log_suspicious_activity, BackendState.log, hua, hsql, hxss]

theorem log_suspicious_activity_events (st : BackendState) (r : HttpRequest)
    (ip ua d : String) :
    (log_suspicious_activity st r ip ua d).events = st.events ++
      [{ user := r.user, event_type := "SUSPICIOUS_ACTIVITY", description := d,
         ip_address := ip, user_agent := ua }] := by
  simp [log_suspicious_activity, BackendState.log]

theorem check_suspicious_activity_events_mem (st : BackendState) (r : HttpRequest)
    (ip ua : String) :
    ∀ e ∈ (check_suspicious_activity st r ip ua).events,
      e ∈ st.events ∨ e.event_type = "SUSPICIOUS_ACTIVITY" := by
  have step : ∀ (s : BackendState) (d : String),
      (∀ e ∈ s.events, e ∈ st.events ∨ e.event_type = "SUSPICIOUS_ACTIVITY") →
      ∀ e ∈ (log_suspicious_activity s r ip ua d).events,
        e ∈ st.events ∨ e.event_type = "SUSPICIOUS_ACTIVITY" := by
    intro s d hs e he
    rw [log_suspicious_activity_events] at he
    rcases List.mem_append.mp he with h | h
    · exact hs e h
    · right
      simp at h
      simp [h]
  have base : ∀ e ∈ st.events, e ∈ st.events ∨ e.event_type = "SUSPICIOUS_ACTIVITY" :=
    fun e he => Or.inl he
  simp only [check_suspicious_activity]
  split <;> split <;> split <;>
    first
      | exact base
      | exact step _ _ base
      | exact step _ _ (step _ _ base)
      | exact step _ _ (step _ _ (step _ _ base))

/-- C5 as amended: the intrusion scan never mutates the cache or the login
table, every record it appends is a SUSPICIOUS_ACTIVITY event, and it appends
one event PER MATCHING FAMILY — at most one for the user-agent signature scan
(first matching signature wins inside that list), plus one if any SQL-injection
pattern matches, plus one if any XSS pattern matches — so up to three events
per request rather than exactly one overall; and the scan never blocks: the
middleware's refusal decision depends only on the sensitive-path check and the
pre-existing rate-limit cache flag, not on the scan result. -/
theorem c5_scan_per_family_no_block (st : BackendState) (r : HttpRequest)
    (ip ua : String) (now : Nat) :
    (check_suspicious_activity st r ip ua).cache = st.cache ∧
    (check_suspicious_activity st r ip ua).login_log = st.login_log ∧
    (check_suspicious_activity st r ip ua).events.length = st.events.length +
      ((if (suspicious_patterns.find? (fun pat => strContains (strLower ua) pat)).isSome
          then 1 else 0) +
       (if detect_sql_injection r then 1 else 0) +
       (if detect_xss_attempt r then 1 else 0)) ∧
    (∀ e ∈ (check_suspicious_activity st r ip ua).events,
      e ∈ st.events ∨ e.event_type = "SUSPICIOUS_ACTIVITY") ∧
    ((process_request st now r).1 = RequestDecision.tooManyRequests ↔
      (is_sensitive_endpoint r = true ∧
        is_rate_limited st.cache now (get_client_ip r) = true)) := by
  refine ⟨check_suspicious_activity_cache st r ip ua,
    check_suspicious_activity_login_log st r ip ua,
    check_suspicious_activity_events_len st r ip ua,
    check_suspicious_activity_events_mem st r ip ua, ?_⟩
  simp only [process_request, check_suspicious_activity_cache]
  split
  · next h =>
    rcases Bool.and_eq_true _ _ |>.mp h with ⟨h1, h2⟩
    simp [h1, h2]
  · next h =>
    rw [Bool.and_eq_true] at h
    constructor
    · intro hcon; exact absurd hcon (by simp)
    · intro hh; exact absurd hh h

/-- Request used by the C5 counterexample: a single query parameter whose
value contains the token javascript:, which is in BOTH the SQL-injection and
the XSS pattern lists. -/
def c5req : HttpRequest :=
  { method := "GET", path := "/", getParams := [("q", "javascript:")], postParams := [],
    user_agent := "Mozilla/5.0", xForwardedFor := none, remoteAddr := "10.0.0.1",
    user := none }

/-- Counterexample to C5 as stated: one request emits TWO SUSPICIOUS_ACTIVITY
events, not exactly one — the detector does not short-circuit across the
pattern families. -/
theorem c5_counterexample_two_events :
    (check_suspicious_activity BackendState.empty c5req "10.0.0.1" "Mozilla/5.0").events.length
      = 2 := by
  decide

/-- Composition helper for sequences of failed logins: one
`RateLimitedModelBackend.authenticate` call with a fixed (wrong) password,
keeping only the resulting state. -/
def authFailStep (cp : String → String → Bool) (u pw : String)
    (st : BackendState) (t : Nat) : BackendState :=
  (RateLimitedModelBackend.authenticate cp st t (some u) (some pw)).st

/-- Folds `authFailStep` over a list of attempt times. -/
def authSeq (cp : String → String → Bool) (u pw : String)
    (st : BackendState) (ts : List Nat) : BackendState :=
  ts.foldl (authFailStep cp u pw) st

theorem authFailStep_state (cp : String → String → Bool) (u pw : String)
    (st : BackendState) (t : Nat) (hpw : cp u pw = false)
    (hnl : st.cache (.accountLockout u) = none) :
    authFailStep cp u pw st t =
      (RateLimitedModelBackend.record_failed_attempt st t u).log
        ("Failed login attempt: " ++ u) := by
  have hl : RateLimitedModelBackend.is_account_locked st.cache t u = false := by
    simp [RateLimitedModelBackend.is_account_locked, Cache.get_none hnl]
  rw [authFailStep, RateLimitedModelBackend.authenticate_failure cp st t u pw hl hpw]

theorem authFailStep_cache (cp : String → String → Bool) (u pw : String)
    (st : BackendState) (t : Nat) (k : Nat) (hpw : cp u pw = false)
    (hnl : st.cache (.accountLockout u) = none)
    (hk : (st.cache.get (.loginAttempts u) t).getD 0 = k) :
    (authFailStep cp u pw st t).cache (.loginAttempts u) =
      some (k + 1, t + LOGIN_ATTEMPTS_TIMEOUT) ∧
    (authFailStep cp u pw st t).cache (.accountLockout u) =
      (if LOGIN_ATTEMPTS_LIMIT ≤ k + 1 then some (1, t + ACCOUNT_LOCKOUT_DURATION)
       else none) := by
  rw [authFailStep_state cp u pw st t hpw hnl]
  constructor
  · show (RateLimitedModelBackend.record_failed_attempt st t u).cache (.loginAttempts u) = _
    rw [RateLimitedModelBackend.record_failed_attempt_counter, hk]
  · show (RateLimitedModelBackend.record_failed_attempt st t u).cache (.accountLockout u) = _
    split
    · next hle =>
      rw [RateLimitedModelBackend.record_failed_attempt_lockout_lock]
      rw [hk]; exact hle
    · next hgt =>
      rw [RateLimitedModelBackend.record_failed_attempt_lockout_small, hnl]
      rw [hk]; omega

theorem getD_of_entry {c : Cache} {k : CacheKey} {v e t : Nat}
    (h : c k = some (v, e)) (ht : t < e) : (c.get k t).getD 0 = v := by
  simp [Cache.get, h, ht]

/-- C2: starting from a fresh identity, after exactly 5 consecutive failed
attempts each within 300 seconds of the previous one, the lockout record is
absent after the 4th but present after the 5th; the next authenticate call —
even with the correct password — returns no user, performs no password
comparison, and leaves the cache (hence the attempt counter) unchanged.
Likewise, while the IP-keyed machine reports locked, authenticate refuses
immediately with no password comparison and no counter update. -/
theorem c2_lockout_after_threshold (cp : String → String → Bool) (st0 : BackendState)
    (u pw pg : String) (t1 t2 t3 t4 t5 t6 : Nat)
    (hc0 : st0.cache (.loginAttempts u) = none)
    (hl0 : st0.cache (.accountLockout u) = none)
    (hpw : cp u pw = false) (hpg : cp u pg = true)
    (h12 : t2 < t1 + LOGIN_ATTEMPTS_TIMEOUT) (h23 : t3 < t2 + LOGIN_ATTEMPTS_TIMEOUT)
    (h34 : t4 < t3 + LOGIN_ATTEMPTS_TIMEOUT) (h45 : t5 < t4 + LOGIN_ATTEMPTS_TIMEOUT)
    (h6 : t6 < t5 + ACCOUNT_LOCKOUT_DURATION) :
    (authSeq cp u pw st0 [t1, t2, t3, t4]).cache (.accountLockout u) = none ∧
    (authSeq cp u pw st0 [t1, t2, t3, t4, t5]).cache (.accountLockout u) =
      some (1, t5 + ACCOUNT_LOCKOUT_DURATION) ∧
    (RateLimitedModelBackend.authenticate cp (authSeq cp u pw st0 [t1, t2, t3, t4, t5])
        t6 (some u) (some pg)).user = none ∧
    (RateLimitedModelBackend.authenticate cp (authSeq cp u pw st0 [t1, t2, t3, t4, t5])
        t6 (some u) (some pg)).password_checked = false ∧
    (RateLimitedModelBackend.authenticate cp (authSeq cp u pw st0 [t1, t2, t3, t4, t5])
        t6 (some u) (some pg)).st.cache =
      (authSeq cp u pw st0 [t1, t2, t3, t4, t5]).cache ∧
    (∀ (st : BackendState) (ip : String) (username password : Option String) (now : Nat),
      IPRateLimitedBackend.is_ip_rate_limited st.cache now ip = true →
      (IPRateLimitedBackend.authenticate cp st now username password ip).user = none ∧
      (IPRateLimitedBackend.authenticate cp st now username password ip).password_checked
        = false ∧
      (IPRateLimitedBackend.authenticate cp st now username password ip).st.cache
        = st.cache) := by
  have s1h := authFailStep_cache cp u pw st0 t1 0 hpw hl0
    (by rw [Cache.get_none hc0]; rfl)
  rw [if_neg (by decide)] at s1h
  set s1 := authFailStep cp u pw st0 t1 with hs1
  have s2h := authFailStep_cache cp u pw s1 t2 1 hpw s1h.2 (getD_of_entry s1h.1 h12)
  rw [if_neg (by decide)] at s2h
  set s2 := authFailStep cp u pw s1 t2 with hs2
  have s3h := authFailStep_cache cp u pw s2 t3 2 hpw s2h.2 (getD_of_entry s2h.1 h23)
  rw [if_neg (by decide)] at s3h
  set s3 := authFailStep cp u pw s2 t3 with hs3
  have s4h := authFailStep_cache cp u pw s3 t4 3 hpw s3h.2 (getD_of_entry s3h.1 h34)
  rw [if_neg (by decide)] at s4h
  set s4 := authFailStep cp u pw s3 t4 with hs4
  have s5h := authFailStep_cache cp u pw s4 t5 4 hpw s4h.2 (getD_of_entry s4h.1 h45)
  rw [if_pos (by decide)] at s5h
  set s5 := authFailStep cp u pw s4 t5 with hs5
  have hseq4 : authSeq cp u pw st0 [t1, t2, t3, t4] = s4 := rfl
  have hseq5 : authSeq cp u pw st0 [t1, t2, t3, t4, t5] = s5 := rfl
  have hlocked : RateLimitedModelBackend.is_account_locked s5.cache t6 u = true := by
    simp [RateLimitedModelBackend.is_account_locked, Cache.get, s5h.2, h6]
  rw [hseq4, hseq5]
  rw [RateLimitedModelBackend.authenticate_locked cp s5 t6 u pg hlocked]
  refine ⟨s4h.2, s5h.2, rfl, rfl, rfl, ?_⟩
  intro st ip username password now hip
  simp [IPRateLimitedBackend.authenticate, hip, BackendState.log]

/-- Concrete credential primitive for the C2 witness. -/
def c2cp : String → String → Bool := fun a b => a == "alice" && b == "pw"

/-- Witness for C2: five wrong-password attempts for alice at times 0..400
(each 100 seconds apart) lock the account; the call at time 500 with the
correct password is refused without a password comparison. -/
theorem c2_lockout_after_threshold_witness :
    (RateLimitedModelBackend.authenticate c2cp
        (authSeq c2cp "alice" "x" BackendState.empty [0, 100, 200, 300, 400])
        500 (some "alice") (some "pw")).user = none ∧
    (RateLimitedModelBackend.authenticate c2cp
        (authSeq c2cp "alice" "x" BackendState.empty [0, 100, 200, 300, 400])
        500 (some "alice") (some "pw")).password_checked = false := by
  have h := c2_lockout_after_threshold c2cp BackendState.empty "alice" "x" "pw"
    0 100 200 300 400 500 rfl rfl (by decide) (by decide)
    (by decide) (by decide) (by decide) (by decide) (by decide)
  exact ⟨h.2.2.1, h.2.2.2.1⟩

/-- C3 as amended: a successful authentication resets the USERNAME-keyed
attempt counter and lockout record to absent, but leaves every other cache
key — in particular the IP-keyed attempt counter and IP rate-limit records —
exactly as it was: the code never resets the IP-keyed state on success. -/
theorem c3_success_resets_username_only (cp : String → String → Bool)
    (st : BackendState) (now : Nat) (u p ip : String)
    (hip : IPRateLimitedBackend.is_ip_rate_limited st.cache now ip = false)
    (hlk : RateLimitedModelBackend.is_account_locked st.cache now u = false)
    (hcp : cp u p = true) :
    (IPRateLimitedBackend.authenticate cp st now (some u) (some p) ip).user = some u ∧
    (IPRateLimitedBackend.authenticate cp st now (some u) (some p) ip).st.cache
      (.loginAttempts u) = none ∧
    (IPRateLimitedBackend.authenticate cp st now (some u) (some p) ip).st.cache
      (.accountLockout u) = none ∧
    (∀ k : CacheKey, k ≠ .loginAttempts u → k ≠ .accountLockout u →
      (IPRateLimitedBackend.authenticate cp st now (some u) (some p) ip).st.cache k
        = st.cache k) := by
  simp only [IPRateLimitedBackend.authenticate, hip, Bool.false_eq_true, if_false,
    RateLimitedModelBackend.authenticate_success cp st now u p hlk hcp]
  refine ⟨trivial, ?_, ?_, ?_⟩
  · exact RateLimitedModelBackend.reset_failed_attempts_counter st u
  · exact RateLimitedModelBackend.reset_failed_attempts_lockout st u
  · intro k h1 h2
    exact RateLimitedModelBackend.reset_failed_attempts_cache_other st u k h1 h2

/-- Cache used by the C3 counterexample and witness: three recorded IP
failures for 10.0.0.1 and two username failures for alice, both unexpired at
time 800. -/
def c3cache : Cache :=
  (Cache.empty.set (.ipAttempts "10.0.0.1") 3 LOGIN_ATTEMPTS_TIMEOUT 700).set
    (.loginAttempts "alice") 2 LOGIN_ATTEMPTS_TIMEOUT 700

/-- State wrapping `c3cache`. -/
def c3st : BackendState := { BackendState.empty with cache := c3cache }

/-- Counterexample to C3 as stated: a successful authentication resets the
username counter to absent but leaves the IP-keyed counter at 3 — it is NOT
reset, contradicting "resets both ... regardless of how many failures
preceded it". -/
theorem c3_counterexample_ip_not_reset :
    (IPRateLimitedBackend.authenticate c2cp c3st 800 (some "alice") (some "pw")
        "10.0.0.1").user = some "alice" ∧
    (IPRateLimitedBackend.authenticate c2cp c3st 800 (some "alice") (some "pw")
        "10.0.0.1").st.cache.get (.loginAttempts "alice") 800 = none ∧
    (IPRateLimitedBackend.authenticate c2cp c3st 800 (some "alice") (some "pw")
        "10.0.0.1").st.cache.get (.ipAttempts "10.0.0.1") 800 = some 3 := by
  decide

/-- Witness for C3 (amended) at the same concrete input. -/
theorem c3_success_resets_username_only_witness :
    (IPRateLimitedBackend.authenticate c2cp c3st 800 (some "alice") (some "pw")
        "10.0.0.1").user = some "alice" ∧
    (IPRateLimitedBackend.authenticate c2cp c3st 800 (some "alice") (some "pw")
        "10.0.0.1").st.cache (.loginAttempts "alice") = none := by
  have h := c3_success_resets_username_only c2cp c3st 800 "alice" "pw" "10.0.0.1"
    (by decide) (by decide) (by decide)
  exact ⟨h.1, h.2.1⟩

theorem record_ip_failed_attempt_tables (st : BackendState) (now : Nat) (ip : String) :
    (IPRateLimitedBackend.record_ip_failed_attempt st now ip).events = st.events ∧
    (IPRateLimitedBackend.record_ip_failed_attempt st now ip).login_log = st.login_log := by
  simp only [IPRateLimitedBackend.record_ip_failed_attempt,
    IPRateLimitedBackend.rate_limit_ip, BackendState.log]
  split <;> simp

theorem rl_authenticate_tables (cp : String → String → Bool)
    (st : BackendState) (now : Nat) (username password : Option String) :
    (RateLimitedModelBackend.authenticate cp st now username password).st.events
      = st.events ∧
    (RateLimitedModelBackend.authenticate cp st now username password).st.login_log
      = st.login_log := by
  cases username with
  | none => cases password <;> simp [RateLimitedModelBackend.authenticate]
  | some u =>
    cases password with
    | none => simp [RateLimitedModelBackend.authenticate]
    | some p =>
      simp only [RateLimitedModelBackend.authenticate]
      split
      · simp [BackendState.log]
      · split
        · simp [BackendState.log, RateLimitedModelBackend.reset_failed_attempts]
        · have h := RateLimitedModelBackend.record_failed_attempt_tables st now u
          constructor
          · simp [BackendState.log, h.1]
          · simp [BackendState.log, h.2]

/-- C4 as amended: NO authentication outcome — success, failure, or lockout —
appends any SecurityEvent or LoginAttempt record: the backends only update
cache counters and emit process log lines.  In particular no LOGIN_FAILED
event, no failed LoginAttempt row, and no ACCOUNT_LOCKED event is ever
appended by the authentication path. -/
theorem c4_no_durable_records (cp : String → String → Bool) (st : BackendState)
    (now : Nat) (username password : Option String) (ip : String) :
    (IPRateLimitedBackend.authenticate cp st now username password ip).st.events
      = st.events ∧
    (IPRateLimitedBackend.authenticate cp st now username password ip).st.login_log
      = st.login_log := by
  simp only [IPRateLimitedBackend.authenticate]
  split
  · simp [BackendState.log]
  · have hr := rl_authenticate_tables cp st now username password
    split
    · have hi := record_ip_failed_attempt_tables
        (RateLimitedModelBackend.authenticate cp st now username password).st now ip
      exact ⟨hi.1.trans hr.1, hi.2.trans hr.2⟩
    · exact hr

/-- Credential primitive rejecting everything (for the C4 counterexample). -/
def cpNever : String → String → Bool := fun _ _ => false

/-- Counterexample to C4 as stated: a failed authentication increments the
counter yet appends no durable record at all (events and login_log stay
empty), and even the 5th failure that sets the lockout record appends no
ACCOUNT_LOCKED event. -/
theorem c4_counterexample_no_events :
    (IPRateLimitedBackend.authenticate cpNever BackendState.empty 0
        (some "alice") (some "x") "1.2.3.4").st.events = [] ∧
    (IPRateLimitedBackend.authenticate cpNever BackendState.empty 0
        (some "alice") (some "x") "1.2.3.4").st.login_log = [] ∧
    (IPRateLimitedBackend.authenticate cpNever BackendState.empty 0
        (some "alice") (some "x") "1.2.3.4").st.cache.get
      (.loginAttempts "alice") 0 = some 1 ∧
    (authSeq cpNever "alice" "x" BackendState.empty [0, 0, 0, 0, 0]).cache
      (.accountLockout "alice") = some (1, ACCOUNT_LOCKOUT_DURATION) ∧
    (authSeq cpNever "alice" "x" BackendState.empty [0, 0, 0, 0, 0]).events = [] := by
  decide

/-- Folds `_record_failed_attempt` for one username over a list of failure
times. -/
def recordSeq (u : String) (st : BackendState) (ts : List Nat) : BackendState :=
  ts.foldl (fun s t => RateLimitedModelBackend.record_failed_attempt s t u) st

theorem recordSeq_counter (u : String) (ts : List Nat) :
    ∀ (st : BackendState) (k tprev : Nat),
      st.cache (.loginAttempts u) = some (k, tprev + LOGIN_ATTEMPTS_TIMEOUT) →
      List.Chain (fun a b => b < a + LOGIN_ATTEMPTS_TIMEOUT) tprev ts →
      (recordSeq u st ts).cache (.loginAttempts u) =
        some (k + ts.length, ts.getLastD tprev + LOGIN_ATTEMPTS_TIMEOUT) := by
  induction ts with
  | nil =>
    intro st k tprev h _
    simpa [recordSeq] using h
  | cons t ts ih =>
    intro st k tprev h hch
    rcases List.chain_cons.mp hch with ⟨hlt, hch'⟩
    have hstep : (RateLimitedModelBackend.record_failed_attempt st t u).cache
        (.loginAttempts u) = some (k + 1, t + LOGIN_ATTEMPTS_TIMEOUT) := by
      rw [RateLimitedModelBackend.record_failed_attempt_counter,
        getD_of_entry h hlt]
    have := ih (RateLimitedModelBackend.record_failed_attempt st t u) (k + 1) t hstep hch'
    have hfold : recordSeq u st (t :: ts) =
        recordSeq u (RateLimitedModelBackend.record_failed_attempt st t u) ts := rfl
    rw [hfold, this, List.getLastD_cons, List.length_cons]
    congr 2
    omega

theorem record_ip_failed_attempt_counter (st : BackendState) (now : Nat) (ip : String) :
    (IPRateLimitedBackend.record_ip_failed_attempt st now ip).cache (.ipAttempts ip) =
      some ((st.cache.get (.ipAttempts ip) now).getD 0 + 1, now + LOGIN_ATTEMPTS_TIMEOUT) := by
  simp only [IPRateLimitedBackend.record_ip_failed_attempt,
    IPRateLimitedBackend.rate_limit_ip, BackendState.log]
  split <;> simp [Cache.set]

/-- C10: every recorded failed attempt (username- or IP-keyed) writes the
incremented count with a fresh full 300-second TTL; hence the window slides:
a sequence of failures, each less than 300 seconds after the previous one,
accumulates to its full length even when the sequence spans far more than one
window, and the counter reads back as present with that count strictly before
last-failure + 300 and as absent from then on. -/
theorem c10_sliding_window (st : BackendState) (now : Nat) (u ip : String) :
    (RateLimitedModelBackend.record_failed_attempt st now u).cache (.loginAttempts u) =
      some ((st.cache.get (.loginAttempts u) now).getD 0 + 1,
        now + LOGIN_ATTEMPTS_TIMEOUT) ∧
    (IPRateLimitedBackend.record_ip_failed_attempt st now ip).cache (.ipAttempts ip) =
      some ((st.cache.get (.ipAttempts ip) now).getD 0 + 1,
        now + LOGIN_ATTEMPTS_TIMEOUT) ∧
    (∀ (t1 : Nat) (ts : List Nat),
      st.cache (.loginAttempts u) = none →
      List.Chain (fun a b => b < a + LOGIN_ATTEMPTS_TIMEOUT) t1 ts →
      (recordSeq u st (t1 :: ts)).cache (.loginAttempts u) =
        some (1 + ts.length, ts.getLastD t1 + LOGIN_ATTEMPTS_TIMEOUT) ∧
      (∀ T : Nat, (recordSeq u st (t1 :: ts)).cache.get (.loginAttempts u) T =
        if T < ts.getLastD t1 + LOGIN_ATTEMPTS_TIMEOUT then some (1 + ts.length)
        else none)) := by
  refine ⟨RateLimitedModelBackend.record_failed_attempt_counter st now u,
    record_ip_failed_attempt_counter st now ip, ?_⟩
  intro t1 ts h0 hch
  have hstep : (RateLimitedModelBackend.record_failed_attempt st t1 u).cache
      (.loginAttempts u) = some (1, t1 + LOGIN_ATTEMPTS_TIMEOUT) := by
    rw [RateLimitedModelBackend.record_failed_attempt_counter, Cache.get_none h0]
    rfl
  have hmain : (recordSeq u st (t1 :: ts)).cache (.loginAttempts u) =
      some (1 + ts.length, ts.getLastD t1 + LOGIN_ATTEMPTS_TIMEOUT) := by
    have hfold : recordSeq u st (t1 :: ts) =
        recordSeq u (RateLimitedModelBackend.record_failed_attempt st t1 u) ts := rfl
    rw [hfold, recordSeq_counter u ts _ 1 t1 hstep hch]
  refine ⟨hmain, ?_⟩
  intro T
  simp [Cache.get, hmain]

/-- Witness for C10: five failures at times 0, 200, 400, 600, 800 (each 200
seconds apart, total span 800 seconds — well beyond one 300-second window)
accumulate to a count of 5; the counter is still present at time 1099 and
absent at time 1100 = 800 + 300. -/
theorem c10_sliding_window_witness :
    (recordSeq "alice" BackendState.empty [0, 200, 400, 600, 800]).cache
      (.loginAttempts "alice") = some (5, 1100) ∧
    (recordSeq "alice" BackendState.empty [0, 200, 400, 600, 800]).cache.get
      (.loginAttempts "alice") 1099 = some 5 ∧
    (recordSeq "alice" BackendState.empty [0, 200, 400, 600, 800]).cache.get
      (.loginAttempts "alice") 1100 = none := by
  have h := (c10_sliding_window BackendState.empty 0 "alice" "1.2.3.4").2.2 0
    [200, 400, 600, 800] rfl
    (List.Chain.cons (by decide) (List.Chain.cons (by decide)
      (List.Chain.cons (by decide) (List.Chain.cons (by decide) List.Chain.nil))))
  refine ⟨by simpa using h.1, by simpa using h.2 1099, by simpa using h.2 1100⟩

/-! ## Concurrency model for C8: the two cache round-trips inside
`_record_failed_attempt`'s counter update, and the ORM read-modify-write of
`verify_backup_code`, decomposed as the primitive steps two concurrent
requests interleave. -/

/-- First round-trip of `_record_failed_attempt`: `current_attempts =
cache.get(attempts_key, 0)`. -/
def counterRead (c : Cache) (now : Nat) (u : String) : Nat :=
  (c.get (.loginAttempts u) now).getD 0

/-- Second round-trip of `_record_failed_attempt`: `cache.set(attempts_key,
current + 1, timeout)`. -/
def counterWrite (c : Cache) (now : Nat) (u : String) (current : Nat) : Cache :=
  c.set (.loginAttempts u) (current + 1) LOGIN_ATTEMPTS_TIMEOUT now

/-- Sequential composition of the two phases IS the source's counter update
(below the lockout threshold), tying the decomposition to
`record_failed_attempt`. -/
theorem record_failed_attempt_is_read_then_write (st : BackendState) (now : Nat)
    (u : String) (h : counterRead st.cache now u + 1 < LOGIN_ATTEMPTS_LIMIT) :
    (RateLimitedModelBackend.record_failed_attempt st now u).cache =
      counterWrite st.cache now u (counterRead st.cache now u) := by
  simp only [RateLimitedModelBackend.record_failed_attempt, counterWrite, counterRead]
  rw [if_neg (by simp only [counterRead] at h; omega)]

/-- Witness for `record_failed_attempt_is_read_then_write` at a concrete
state. -/
theorem record_failed_attempt_is_read_then_write_witness :
    (RateLimitedModelBackend.record_failed_attempt BackendState.empty 0 "alice").cache
      (.loginAttempts "alice") =
      (counterWrite Cache.empty 0 "alice" (counterRead Cache.empty 0 "alice"))
        (.loginAttempts "alice") := by
  rw [record_failed_attempt_is_read_then_write BackendState.empty 0 "alice" (by decide)]
  rfl

/-- Django ORM save of an instance previously loaded from the row: the write
overwrites the stored row with the snapshot's computed state. -/
def ormSave (_db : TwoFactorAuth) (snapshotResult : TwoFactorAuth) : TwoFactorAuth :=
  snapshotResult

/-- Interleaving in which two request handlers both load the `TwoFactorAuth`
row before either saves: each runs `verify_backup_code` on its own snapshot,
then the two saves land in order. -/
def ormInterleavedRedeem (db : TwoFactorAuth) (code : String) :
    Bool × Bool × TwoFactorAuth :=
  let resA := db.verify_backup_code code
  let resB := db.verify_backup_code code
  let db1 := ormSave db resA.2
  let db2 := ormSave db1 resB.2
  (resA.1, resB.1, db2)

/-- C8 (code bug): the counter update is two separate cache round-trips, not
one atomic operation — in the interleaving where both requests read before
either writes, two failed attempts leave the counter at 1 (a lost update),
whereas the sequential composition leaves it at 2; and backup-code redemption
is an ORM read-modify-write, so two concurrent redemptions of the same code
can BOTH succeed. -/
theorem c8_nonatomic_races :
    ((counterWrite (counterWrite Cache.empty 0 "alice" (counterRead Cache.empty 0 "alice"))
        0 "alice" (counterRead Cache.empty 0 "alice")).get
      (.loginAttempts "alice") 0 = some 1) ∧
    ((counterWrite (counterWrite Cache.empty 0 "alice" (counterRead Cache.empty 0 "alice"))
        0 "alice" (counterRead
          (counterWrite Cache.empty 0 "alice" (counterRead Cache.empty 0 "alice"))
          0 "alice")).get (.loginAttempts "alice") 0 = some 2) ∧
    ormInterleavedRedeem ⟨true, "S", ["A1B2C3D4"]⟩ "A1B2C3D4" =
      (true, true, ⟨true, "S", []⟩) := by
  decide

/-! ## System operations for C9: everything in the embedding that can touch
the cache. -/

/-- An operation of the modelled system: an authentication attempt through
the backend chain, or an HTTP request through the security middleware. -/
inductive SysOp where
  | login (cp : String → String → Bool) (now : Nat) (username password : Option String)
      (client_ip : String)
  | request (now : Nat) (r : HttpRequest)

/-- Applies one system operation to the state. -/
def applyOp (st : BackendState) : SysOp → BackendState
  | .login cp now username password client_ip =>
    (IPRateLimitedBackend.authenticate cp st now username password client_ip).st
  | .request now r => (process_request st now r).2

/-- Folds a list of system operations. -/
def runOps (st : BackendState) (ops : List SysOp) : BackendState :=
  ops.foldl applyOp st

theorem record_ip_failed_attempt_cache_other (st : BackendState) (now : Nat) (ip : String)
    (k : CacheKey) (h1 : k ≠ .ipAttempts ip) (h2 : k ≠ .ipRateLimit ip) :
    (IPRateLimitedBackend.record_ip_failed_attempt st now ip).cache k = st.cache k := by
  simp only [IPRateLimitedBackend.record_ip_failed_attempt,
    IPRateLimitedBackend.rate_limit_ip, BackendState.log]
  split <;> simp [Cache.set, h1, h2]

theorem rl_authenticate_rateLimit_key (cp : String → String → Bool) (st : BackendState)
    (now : Nat) (username password : Option String) (ip' : String) :
    (RateLimitedModelBackend.authenticate cp st now username password).st.cache
      (.rateLimit ip') = st.cache (.rateLimit ip') := by
  cases username with
  | none => cases password <;> simp [RateLimitedModelBackend.authenticate]
  | some u =>
    cases password with
    | none => simp [RateLimitedModelBackend.authenticate]
    | some p =>
      simp only [RateLimitedModelBackend.authenticate]
      split
      · simp [BackendState.log]
      · split
        · show (RateLimitedModelBackend.reset_failed_attempts st u).cache
              (.rateLimit ip') = st.cache (.rateLimit ip')
          exact RateLimitedModelBackend.reset_failed_attempts_cache_other st u _
            (by simp) (by simp)
        · show (RateLimitedModelBackend.record_failed_attempt st now u).cache
              (.rateLimit ip') = st.cache (.rateLimit ip')
          exact RateLimitedModelBackend.record_failed_attempt_cache_other st now u _
            (by simp) (by simp)

theorem ip_authenticate_rateLimit_key (cp : String → String → Bool) (st : BackendState)
    (now : Nat) (username password : Option String) (cip ip' : String) :
    (IPRateLimitedBackend.authenticate cp st now username password cip).st.cache
      (.rateLimit ip') = st.cache (.rateLimit ip') := by
  simp only [IPRateLimitedBackend.authenticate]
  split
  · simp [BackendState.log]
  · have hr := rl_authenticate_rateLimit_key cp st now username password ip'
    split
    · have hi := record_ip_failed_attempt_cache_other
        (RateLimitedModelBackend.authenticate cp st now username password).st now cip
        (.rateLimit ip') (by simp) (by simp)
      exact hi.trans hr
    · exact hr

theorem process_request_cache (st : BackendState) (now : Nat) (r : HttpRequest) :
    ((process_request st now r).2).cache = st.cache := by
  simp only [process_request]
  split <;> simp [BackendState.log, check_suspicious_activity_cache]

theorem process_request_refuses_iff (st : BackendState) (now : Nat) (r : HttpRequest) :
    (process_request st now r).1 = RequestDecision.tooManyRequests ↔
      (is_sensitive_endpoint r = true ∧
        is_rate_limited st.cache now (get_client_ip r) = true) := by
  simp only [process_request, check_suspicious_activity_cache]
  split
  · next h =>
    rcases Bool.and_eq_true _ _ |>.mp h with ⟨h1, h2⟩
    simp [h1, h2]
  · next h =>
    rw [Bool.and_eq_true] at h
    constructor
    · intro hcon; exact absurd hcon (by simp)
    · intro hh; exact absurd hh h

theorem runOps_no_rateLimit_key (ops : List SysOp) :
    ∀ st : BackendState, (∀ ip, st.cache (.rateLimit ip) = none) →
      ∀ ip, (runOps st ops).cache (.rateLimit ip) = none := by
  induction ops with
  | nil => intro st h ip; exact h ip
  | cons op ops ih =>
    intro st h ip
    refine ih (applyOp st op) ?_ ip
    intro ip'
    cases op with
    | login cp now username password cip =>
      simp only [applyOp]
      rw [ip_authenticate_rateLimit_key]
      exact h ip'
    | request now r =>
      simp only [applyOp]
      rw [process_request_cache]
      exact h ip'

/-- C9 as amended: the middleware refuses a request with too-many-requests
exactly when the path has a sensitive prefix AND a live rate_limit cache
entry exists for the client IP; but no operation of the system — neither the
authentication backends (which write only login_attempts, account_lockout,
ip_attempts and ip_rate_limit keys) nor the middleware itself — ever writes a
rate_limit key, and no per-IP request counting exists, so from the initial
state every request is passed through no matter how many requests preceded
it: the advertised per-IP request-rate cap never triggers. -/
theorem c9_rate_gate_never_refuses :
    (∀ (st : BackendState) (now : Nat) (r : HttpRequest),
      (process_request st now r).1 = RequestDecision.tooManyRequests ↔
        (is_sensitive_endpoint r = true ∧
          is_rate_limited st.cache now (get_client_ip r) = true)) ∧
    (∀ (ops : List SysOp) (now : Nat) (r : HttpRequest),
      (process_request (runOps BackendState.empty ops) now r).1 =
        RequestDecision.pass) := by
  refine ⟨process_request_refuses_iff, ?_⟩
  intro ops now r
  have hnone := runOps_no_rateLimit_key ops BackendState.empty (fun _ => rfl)
    (get_client_ip r)
  have hrl : is_rate_limited (runOps BackendState.empty ops).cache now
      (get_client_ip r) = false := by
    simp [is_rate_limited, Cache.get_none hnone]
  have hne : (process_request (runOps BackendState.empty ops) now r).1 ≠
      RequestDecision.tooManyRequests := by
    intro hd
    have := (process_request_refuses_iff _ now r).mp hd
    rw [hrl] at this
    exact absurd this.2 (by simp)
  revert hne
  generalize (process_request (runOps BackendState.empty ops) now r).1 = d
  intro hne
  cases d
  · rfl
  · exact absurd rfl hne

/-- Sensitive-path request used by the C9 counterexample. -/
def c9req : HttpRequest :=
  { method := "GET", path := "/admin/", getParams := [], postParams := [],
    user_agent := "Mozilla/5.0", xForwardedFor := none, remoteAddr := "9.9.9.9",
    user := none }

/-- Counterexample to C9 as stated: after ten requests from the same IP to a
sensitive path in the same second — beyond any per-window cap — the eleventh
request is still passed, not refused. -/
theorem c9_counterexample_no_cap :
    (process_request
      (runOps BackendState.empty (List.replicate 10 (SysOp.request 0 c9req))) 0 c9req).1
      = RequestDecision.pass := by
  decide
